import Mathlib

/-!
Verification of the speed-reconciliation and injection logic of a
YouTube playback-speed browser extension (content script).

Shallow embedding conventions:
* times are natural numbers in milliseconds (JavaScript Date.now());
  JavaScript subtraction of an earlier timestamp from a later one agrees
  with truncated Nat subtraction in every guard modelled here, because the
  guards only test strict upper bounds that are also satisfied at 0;
* speeds (playback rates) are rationals;
* the mutable globals of the content script are gathered into one record
  RecState; each event handler is a pure function from the pre-state to
  the post-state, returning alongside it any effect it schedules
  (a timer delay) so that the theorems can speak about scheduled work;
* the debounced storage write (saveSpeedTimeout / setTimeout 300) is
  modelled as an optional pending pair of fire time and value.
-/

namespace YTSpeed

/-- MIN speed constant of the content script (const MIN_SPEED = 0.2). -/
def MIN_SPEED : ℚ := 1/5

/-- MAX speed constant of the content script (const MAX_SPEED = 10.0). -/
def MAX_SPEED : ℚ := 10

/-- The mutable globals of the content script relevant to rate
reconciliation, plus the observable state of the video element.
videoRate is the playbackRate property of the (main) video element;
videoPresent and videoReadyState describe whether getVideo() finds an
element and its readyState. -/
structure RecState where
  currentSpeed : ℚ
  previousVideoSpeed : ℚ
  temporarySpeed : Option ℚ
  lastManualSpeedChange : ℕ
  lastVideoSpeedChange : ℕ
  isSliderActive : Bool
  saveSpeedTimeout : Option (ℕ × ℚ)
  videoRate : ℚ
  videoPresent : Bool
  videoReadyState : ℕ
deriving Repr, DecidableEq

/-- The initial global state of the content script (currentSpeed = 1.0,
previousVideoSpeed = 1.0, no temporary speed, zero timestamps), together
with a present, ready video playing at rate 1. -/
def initState : RecState where
  currentSpeed := 1
  previousVideoSpeed := 1
  temporarySpeed := none
  lastManualSpeedChange := 0
  lastVideoSpeedChange := 0
  isSliderActive := false
  saveSpeedTimeout := none
  videoRate := 1
  videoPresent := true
  videoReadyState := 1

/-- saveSpeed from content.js: validates the value and performs the
storage write only when the value lies within [MIN_SPEED, MAX_SPEED];
an out-of-range value is rejected (warned about) and nothing is written.
Returns the value written, if any.  The non-number and NaN rejections of
the source have no counterpart on rationals. -/
def saveSpeed (speed : ℚ) : Option ℚ :=
  if speed < MIN_SPEED ∨ speed > MAX_SPEED then none else some speed

/-- applySpeed from content.js (second revision, lines 737-791).  When a
video element is present and readyState is at least 1: writes the rate
onto the video element, sets currentSpeed and previousVideoSpeed to the
requested value (no clamping occurs anywhere in this function), records
lastManualSpeedChange = now, and unless skipSave holds replaces the
pending debounced save with one firing 300 ms from now.  When the video
is missing the function returns without any state change; when the video
is not yet ready the source only registers deferred listeners, so no
immediate state change is modelled. -/
def applySpeed (now : ℕ) (speed : ℚ) (skipSave : Bool) (s : RecState) : RecState :=
  if ¬ s.videoPresent then s
  else if s.videoReadyState < 1 then s
  else
    let s1 : RecState :=
      { s with videoRate := speed, currentSpeed := speed,
               previousVideoSpeed := speed, lastManualSpeedChange := now }
    if skipSave then s1
    else { s1 with saveSpeedTimeout := some (now + 300, speed) }

/-- The chrome.runtime.onMessage handler for action setSpeed: it calls
applySpeed(request.speed) directly (no skipSave, no clamping). -/
def onSetSpeedMessage (now : ℕ) (speed : ℚ) (s : RecState) : RecState :=
  applySpeed now speed false s

/-- Clamping to an interval as the specification describes it
(clamp(v, lo, hi)).  This definition follows the words of the spec, to
be compared with what the source actually does. -/
def specClamp (v lo hi : ℚ) : ℚ := max lo (min v hi)

/-- Whether an active temporarySpeed matches the observed rate within
0.01 (the middle test of shouldAllowSpeedChange). -/
def tempActiveMatches (videoSpeed : ℚ) (s : RecState) : Bool :=
  match s.temporarySpeed with
  | none => false
  | some t => if |videoSpeed - t| < 1/100 then true else false

/-- shouldAllowSpeedChange from content.js (lines 800-818).  Returns
whether an externally observed rate should be allowed to stand (i.e.
whether the caller should suppress its correction).  Note the first
test: a manual change within the last 500 ms makes it return false, so
the caller proceeds to correct. -/
def shouldAllowSpeedChange (now : ℕ) (videoSpeed : ℚ) (s : RecState) : Bool :=
  if now - s.lastManualSpeedChange < 500 then false
  else if tempActiveMatches videoSpeed s then true
  else if now - s.lastVideoSpeedChange < 1000 then true
  else false

/-- The interval of the periodic backstop (setInterval ..., 1000). -/
def TICK_INTERVAL_MS : ℕ := 1000

/-- Result of one periodic backstop tick: the new state and whether a
corrective write to the video rate was performed. -/
structure TickResult where
  state : RecState
  corrected : Bool
deriving Repr, DecidableEq

/-- The periodic setInterval callback of monitorVideoSpeed (lines
893-913): skips while the slider is active or no video is found, asks
shouldAllowSpeedChange, and otherwise, when the observed rate differs
from currentSpeed by more than 0.01, writes currentSpeed onto the video
and re-synchronizes previousVideoSpeed, temporarySpeed and
lastManualSpeedChange. -/
def onPeriodicTick (now : ℕ) (s : RecState) : TickResult :=
  if s.isSliderActive then ⟨s, false⟩
  else if ¬ s.videoPresent then ⟨s, false⟩
  else if shouldAllowSpeedChange now s.videoRate s then ⟨s, false⟩
  else if |s.videoRate - s.currentSpeed| > 1/100 then
    ⟨{ s with videoRate := s.currentSpeed, previousVideoSpeed := s.currentSpeed,
              temporarySpeed := none, lastManualSpeedChange := now }, true⟩
  else ⟨s, false⟩

/-- Result of the ratechange event handler: the new state, together
with the delay of a corrective re-apply it scheduled via setTimeout
(none when no timer was scheduled).  The handler itself never writes
the video rate. -/
structure RateChangeResult where
  state : RecState
  scheduledRestoreDelay : Option ℕ
deriving Repr, DecidableEq

/-- The ratechange listener of monitorVideoSpeed (lines 843-890).  The
new rate is read off the video element, so it is s.videoRate here; a
host-initiated change is modelled by updating videoRate in the state
before invoking this handler. -/
def onRateChange (now : ℕ) (s : RecState) : RateChangeResult :=
  if s.isSliderActive then ⟨s, none⟩
  else
    let videoSpeed := s.videoRate
    if now - s.lastManualSpeedChange < 300 then
      ⟨{ s with previousVideoSpeed := videoSpeed, temporarySpeed := none }, none⟩
    else if |videoSpeed - s.previousVideoSpeed| > 1/100 then
      let s1 : RecState := { s with lastVideoSpeedChange := now }
      if ¬ |videoSpeed - s1.currentSpeed| < 1/100 then
        match s1.temporarySpeed with
        | some t =>
          if |videoSpeed - t| > 1/100 then
            ⟨{ s1 with temporarySpeed := none, previousVideoSpeed := videoSpeed }, some 100⟩
          else
            ⟨{ s1 with temporarySpeed := some videoSpeed,
                       previousVideoSpeed := videoSpeed }, none⟩
        | none =>
          ⟨{ s1 with temporarySpeed := some videoSpeed,
                     previousVideoSpeed := videoSpeed }, none⟩
      else
        ⟨{ s1 with temporarySpeed := none, previousVideoSpeed := videoSpeed }, none⟩
    else ⟨s, none⟩

/-- The callback of the corrective setTimeout scheduled by the
ratechange handler (lines 873-878): it re-reads the live video element
and the live currentSpeed at fire time, and re-applies currentSpeed only
when the live rate still differs from it by more than 0.01. -/
def restoreCallback (now : ℕ) (s : RecState) : RecState :=
  if s.videoPresent ∧ |s.videoRate - s.currentSpeed| > 1/100 then
    applySpeed now s.currentSpeed false s
  else s

/-- The play listener of monitorVideoSpeed (lines 830-840): consults
shouldAllowSpeedChange and otherwise re-applies currentSpeed when the
observed rate has drifted by more than 0.01. -/
def onPlay (now : ℕ) (s : RecState) : RecState :=
  if shouldAllowSpeedChange now s.videoRate s then s
  else if |s.videoRate - s.currentSpeed| > 1/100 then
    applySpeed now s.currentSpeed false s
  else s

/-- The speed-checking part of the MutationObserver callback of
setupMutationObserver: skips while the slider is active or no video is
found, consults shouldAllowSpeedChange, and otherwise schedules
applySpeed(currentSpeed) after 100 ms when drift exceeds 0.01.  Returns
the delay of the scheduled timer, if any. -/
def onMutationSpeedCheck (now : ℕ) (s : RecState) : Option ℕ :=
  if s.isSliderActive then none
  else if ¬ s.videoPresent then none
  else if shouldAllowSpeedChange now s.videoRate s then none
  else if |s.videoRate - s.currentSpeed| > 1/100 then some 100
  else none

/-- loadSavedSpeed from content.js (lines 702-711): reads the persisted
playbackSpeed key and assigns it to currentSpeed only when it is present
and truthy; the number 0 is falsy in JavaScript, so an absent key or a
stored 0 leaves currentSpeed at its previous (default) value. -/
def loadSavedSpeed (stored : Option ℚ) (s : RecState) : RecState :=
  match stored with
  | none => s
  | some v => if v ≠ 0 then { s with currentSpeed := v } else s

/-- The chrome.storage.onChanged listener (lines 1631-1643), restricted
to the playbackSpeed key of the local area: ignored while the slider is
active; a falsy new value (0) or one within 0.01 of currentSpeed is
ignored; an accepted value is applied with skipSave = true. -/
def onStorageChanged (now : ℕ) (newValue : Option ℚ) (s : RecState) : RecState :=
  if s.isSliderActive then s
  else
    match newValue with
    | none => s
    | some v =>
      if v ≠ 0 ∧ |v - s.currentSpeed| > 1/100 then applySpeed now v true s
      else s

/-- Fires a pending debounced save, producing the storage writes it
performs: the stored pair is (fire time, value) and the write happens
only when saveSpeed accepts the value. -/
def debounceFlush (p : Option (ℕ × ℚ)) : List (ℕ × ℚ) :=
  match p with
  | none => []
  | some (ft, v) =>
    match saveSpeed v with
    | some w => [(ft, w)]
    | none => []

/-- Event-loop semantics of the debounced save across a sequence of
applySpeed calls, given as (time, value) pairs in chronological order.
Before each call executes, a pending timer whose fire time has been
reached fires; the call then clears any still-pending timer
(clearTimeout) and schedules a fresh save 300 ms out (setTimeout).
After the last call, the remaining pending timer fires.  Returns the
chronological list of performed storage writes. -/
def debounceGo (p : Option (ℕ × ℚ)) : List (ℕ × ℚ) → List (ℕ × ℚ)
  | [] => debounceFlush p
  | (t, v) :: rest =>
    let fired :=
      match p with
      | some (ft, pv) => if ft ≤ t then debounceFlush (some (ft, pv)) else []
      | none => []
    fired ++ debounceGo (some (t + 300, v)) rest

/-- Runs a whole sequence of applySpeed calls starting with no pending
save. -/
def debounceRun (calls : List (ℕ × ℚ)) : List (ℕ × ℚ) := debounceGo none calls

/-- Two consecutive calls of a burst: chronological order and strictly
less than 300 ms apart. -/
def burstStep (a b : ℕ × ℚ) : Prop := a.1 ≤ b.1 ∧ b.1 < a.1 + 300

instance : DecidableRel burstStep := fun a b => by
  unfold burstStep; infer_instance

/-- The observable properties of the primary player element
(#movie_player) that injectSpeedControls inspects: its bounding-box
dimensions, whether a controls container is found inside it (the
lookups of findRightControls and the ytp-chrome-controls fallback are
all scoped to this player element), and its contained video element
with its readyState. -/
structure PlayerEnv where
  width : ℚ
  height : ℚ
  hasRightControls : Bool
  hasVideo : Bool
  videoReadyState : ℕ
deriving Repr, DecidableEq

/-- findRightControls of content.js: every selector it tries is run on
the given player element, so the lookup is a function of the player
alone, never a document-wide class query. -/
def findRightControls (p : PlayerEnv) : Bool := p.hasRightControls

/-- Abstract count of marker-class nodes in the whole document:
buttons counts nodes of class yt-custom-speed-button, panels counts
nodes of class yt-custom-speed-panel; refValid states that the
speedButton global holds a node and it is identical to the first
marker button found in the document. -/
structure DomState where
  buttons : ℕ
  panels : ℕ
  refValid : Bool
deriving Repr, DecidableEq

/-- The orphan-removal step of injectSpeedControls (lines 1391-1396):
every node of either marker class is removed from the document. -/
def removeOrphans (_d : DomState) : DomState :=
  { buttons := 0, panels := 0, refValid := false }

/-- The creation step of injectSpeedControls (lines 1398-1448): one new
button is inserted into the controls container and one new panel is
appended to the player, and the speedButton global now refers to the
inserted button. -/
def createNodes (d : DomState) : DomState :=
  { buttons := d.buttons + 1, panels := d.panels + 1, refValid := true }

/-- injectSpeedControls from content.js (lines 1305-1465): requires the
primary player #movie_player, non-degenerate dimensions (both above
100 px), a controls container inside the player, and a present video
with readyState at least 1; then either recognises a still-valid
earlier injection, or removes all orphaned marker nodes and creates
fresh ones.  Returns whether controls are mounted, with the resulting
document state. -/
def injectSpeedControls (player : Option PlayerEnv) (d : DomState) :
    Bool × DomState :=
  match player with
  | none => (false, d)
  | some p =>
    if ¬ (p.width > 100 ∧ p.height > 100) then (false, d)
    else if ¬ findRightControls p then (false, d)
    else if ¬ (p.hasVideo ∧ 1 ≤ p.videoReadyState) then (false, d)
    else if 0 < d.buttons ∧ d.refValid then (true, d)
    else (true, createNodes (removeOrphans d))

/-- The polling interval of waitForPlayer (setInterval ..., 500). -/
def POLL_INTERVAL_MS : ℕ := 500

/-- The retry budget of waitForPlayer (const maxAttempts = 100). -/
def MAX_ATTEMPTS : ℕ := 100

/-- One run of the waitForPlayer interval with the given fuel:
each tick increments the attempt counter, stops on successful
injection (f k = true at attempt k) and stops once the counter reaches
MAX_ATTEMPTS.  Returns the number of attempts performed. -/
def waitForPlayerGo (f : ℕ → Bool) : ℕ → ℕ → ℕ
  | 0, attempts => attempts
  | fuel + 1, attempts =>
    if f (attempts + 1) then attempts + 1
    else if MAX_ATTEMPTS ≤ attempts + 1 then attempts + 1
    else waitForPlayerGo f fuel (attempts + 1)

/-- waitForPlayer from content.js (lines 1468-1498), abstracted over
the success of the injection attempt at each tick; returns how many
attempts the loop performs before its interval is cleared. -/
def waitForPlayerAttempts (f : ℕ → Bool) : ℕ :=
  waitForPlayerGo f MAX_ATTEMPTS 0

/-- Scenario state: a manual change happened 100 ms ago, the video rate
2 matches the active temporary speed, and an external change was
recorded 100 ms ago, while currentSpeed is 1.5. -/
def manualRecentState : RecState where
  currentSpeed := 3/2
  previousVideoSpeed := 2
  temporarySpeed := some 2
  lastManualSpeedChange := 900
  lastVideoSpeedChange := 900
  isSliderActive := false
  saveSpeedTimeout := none
  videoRate := 2
  videoPresent := true
  videoReadyState := 1

/-- Scenario state for the temporary-override sequence: DesiredSpeed is
1.5, the video plays at 1.0, nothing recent, no temporary speed. -/
def overrideStart : RecState where
  currentSpeed := 3/2
  previousVideoSpeed := 1
  temporarySpeed := none
  lastManualSpeedChange := 0
  lastVideoSpeedChange := 0
  isSliderActive := false
  saveSpeedTimeout := none
  videoRate := 1
  videoPresent := true
  videoReadyState := 1

/-- Processing of the native hold: the host raises the rate to 2.0 and
the ratechange listener runs at t = 5000. -/
def overrideHold : RateChangeResult :=
  onRateChange 5000 { overrideStart with videoRate := 2 }

/-- Processing of the native release: the host drops the rate to 1.0 and
the ratechange listener runs at t = 6000. -/
def overrideRelease : RateChangeResult :=
  onRateChange 6000 { overrideHold.state with videoRate := 1 }

/-! Theorems.  Shared helper lemmas come first, then one theorem per
claim (with counterexamples and witnesses where applicable). -/

/-- Helper: the echo branch of the ratechange listener, used by several
claims: within 300 ms of a manual change the handler only updates
previousVideoSpeed and clears temporarySpeed. -/
lemma onRateChange_echo (now : ℕ) (s : RecState)
    (hsl : s.isSliderActive = false)
    (h : now - s.lastManualSpeedChange < 300) :
    onRateChange now s =
      ⟨{ s with previousVideoSpeed := s.videoRate, temporarySpeed := none },
        none⟩ := by
  simp [onRateChange, hsl, h]

/-- C1, counterexample: a setSpeed request of 20 stores currentSpeed = 20,
while clamp(20, 0.2, 10) = 10, so the stored DesiredSpeed does not equal
the clamped value; no clamping happens on this path. -/
theorem setSpeed_request_20_not_clamped :
    (onSetSpeedMessage 1000 20 initState).currentSpeed = 20 ∧
    specClamp 20 MIN_SPEED MAX_SPEED = 10 ∧
    (onSetSpeedMessage 1000 20 initState).currentSpeed ≠
      specClamp 20 MIN_SPEED MAX_SPEED := by
  refine ⟨?_, ?_, ?_⟩ <;>
    norm_num [onSetSpeedMessage, applySpeed, initState, specClamp,
      MIN_SPEED, MAX_SPEED]

/-- C1, amended: for every speed value v requested via the setSpeed
message (and hence applySpeed with a present, ready video), the stored
currentSpeed afterwards equals v itself, with no clamping; a request
outside [0.2, 10.0] is stored as-is, and the persistence layer
(saveSpeed) rejects such a value outright instead of clamping it. -/
theorem applySpeed_stores_unclamped (now : ℕ) (v w : ℚ) (s : RecState)
    (hp : s.videoPresent = true) (hr : 1 ≤ s.videoReadyState)
    (hw : w < MIN_SPEED ∨ MAX_SPEED < w) :
    (onSetSpeedMessage now v s).currentSpeed = v ∧
    (applySpeed now v false s).currentSpeed = v ∧
    saveSpeed w = none := by
  have hnr : ¬ s.videoReadyState < 1 := Nat.not_lt.mpr hr
  refine ⟨?_, ?_, ?_⟩
  · simp [onSetSpeedMessage, applySpeed, hp, hnr]
  · simp [applySpeed, hp, hnr]
  · unfold saveSpeed
    rw [if_pos]
    rcases hw with h | h
    · exact Or.inl h
    · exact Or.inr h

/-- C1 witness: instantiation of the amended theorem at v = w = 20 on
the initial state. -/
theorem applySpeed_stores_unclamped_witness :
    (onSetSpeedMessage 5 20 initState).currentSpeed = 20 ∧
    (applySpeed 5 20 false initState).currentSpeed = 20 ∧
    saveSpeed 20 = none :=
  applySpeed_stores_unclamped 5 20 20 initState rfl (by decide)
    (by norm_num [MIN_SPEED, MAX_SPEED])

/-- C2, counterexample: a state in which all three conditions of the
claim hold at once (a manual change 100 ms ago, video rate matching the
active temporary speed, an external change 100 ms ago), yet the gate
returns false and the periodic backstop performs a correction, because
the recent manual change forces (rather than suppresses) correction. -/
theorem shouldAllow_manual_recent_forces_correction :
    (1000 - manualRecentState.lastManualSpeedChange < 500) ∧
    tempActiveMatches manualRecentState.videoRate manualRecentState = true ∧
    (1000 - manualRecentState.lastVideoSpeedChange < 1000) ∧
    shouldAllowSpeedChange 1000 manualRecentState.videoRate
      manualRecentState = false ∧
    (onPeriodicTick 1000 manualRecentState).corrected = true := by
  refine ⟨by norm_num [manualRecentState], ?_, by norm_num [manualRecentState],
    ?_, ?_⟩
  · norm_num [manualRecentState, tempActiveMatches]
  · norm_num [manualRecentState, shouldAllowSpeedChange, tempActiveMatches]
  · norm_num [manualRecentState, onPeriodicTick, shouldAllowSpeedChange,
      tempActiveMatches, abs_of_nonneg, lt_abs]

/-- C2, amended: the gate suppresses a correction iff no manual change
happened within the last 500 ms AND (the observed rate matches an
active temporaryRate within 0.01, or an external rate change was
recorded within the last 1000 ms); a manual change within the last
500 ms makes the gate return false, so the callers proceed to correct.
The second and third conjuncts characterise the suppression at the
periodic-backstop and mutation-observer call sites. -/
theorem shouldAllowSpeedChange_iff (now : ℕ) (videoSpeed : ℚ)
    (s : RecState) :
    (shouldAllowSpeedChange now videoSpeed s = true ↔
      ¬ (now - s.lastManualSpeedChange < 500) ∧
      (tempActiveMatches videoSpeed s = true ∨
        now - s.lastVideoSpeedChange < 1000)) ∧
    ((onPeriodicTick now s).corrected = true ↔
      s.isSliderActive = false ∧ s.videoPresent = true ∧
      shouldAllowSpeedChange now s.videoRate s = false ∧
      |s.videoRate - s.currentSpeed| > 1/100) ∧
    (onMutationSpeedCheck now s = some 100 ↔
      s.isSliderActive = false ∧ s.videoPresent = true ∧
      shouldAllowSpeedChange now s.videoRate s = false ∧
      |s.videoRate - s.currentSpeed| > 1/100) := by
  refine ⟨?_, ?_, ?_⟩
  · unfold shouldAllowSpeedChange
    split_ifs <;> simp_all
  · unfold onPeriodicTick
    split_ifs <;> simp_all
  · unfold onMutationSpeedCheck
    split_ifs <;> simp_all

/-- C5: an observed rate change processed (slider not active) within
300 ms of a manual change only updates previousVideoSpeed to the new
rate and clears temporarySpeed: the resulting state and effect show no
rate write, no scheduled timer, and unchanged lastVideoSpeedChange,
currentSpeed and pending save. -/
theorem ratechange_echo_suppression (now : ℕ) (s : RecState)
    (hsl : s.isSliderActive = false)
    (hecho : now - s.lastManualSpeedChange < 300) :
    onRateChange now s =
      ⟨{ s with previousVideoSpeed := s.videoRate, temporarySpeed := none },
        none⟩ :=
  onRateChange_echo now s hsl hecho

/-- C5 witness: instantiation on a state with a manual change 100 ms
before the event. -/
theorem ratechange_echo_suppression_witness :
    onRateChange 1100 { initState with lastManualSpeedChange := 1000, videoRate := 2 } =
      ⟨{ initState with lastManualSpeedChange := 1000, videoRate := 2, previousVideoSpeed := 2, temporarySpeed := none }, none⟩ :=
  ratechange_echo_suppression 1100
    { initState with lastManualSpeedChange := 1000, videoRate := 2 }
    rfl (by decide)

/-- C3: in the sequence 1.0 to 2.0 to 1.0 with DesiredSpeed 1.5, no
recent manual change and no active temporary speed, the 2.0 event is
recorded as the temporary speed with no corrective write and no timer,
and the 1.0 event clears the temporary speed and schedules a corrective
re-apply after the 100 ms grace delay; the callback fired at that point
compares the then-current live rate (an arbitrary liveRate below)
against DesiredSpeed, not the captured stale value. -/
theorem override_sequence_behaviour :
    overrideHold.state.temporarySpeed = some 2 ∧
    overrideHold.scheduledRestoreDelay = none ∧
    overrideHold.state.videoRate = 2 ∧
    overrideHold.state.currentSpeed = 3/2 ∧
    overrideRelease.state.temporarySpeed = none ∧
    overrideRelease.scheduledRestoreDelay = some 100 ∧
    overrideRelease.state.videoRate = 1 ∧
    (∀ liveRate : ℚ,
      (restoreCallback 6100
          { overrideRelease.state with videoRate := liveRate }).videoRate =
        if |liveRate - 3/2| > 1/100 then 3/2 else liveRate) := by
  have h1 : overrideHold =
      ⟨{ currentSpeed := 3/2, previousVideoSpeed := 2, temporarySpeed := some 2, lastManualSpeedChange := 0, lastVideoSpeedChange := 5000, isSliderActive := false, saveSpeedTimeout := none, videoRate := 2, videoPresent := true, videoReadyState := 1 }, none⟩ := by
    norm_num [overrideHold, onRateChange, overrideStart, abs_of_nonneg,
      lt_abs, abs_sub_lt_iff]
  have h2 : overrideRelease =
      ⟨{ currentSpeed := 3/2, previousVideoSpeed := 1, temporarySpeed := none, lastManualSpeedChange := 0, lastVideoSpeedChange := 6000, isSliderActive := false, saveSpeedTimeout := none, videoRate := 1, videoPresent := true, videoReadyState := 1 }, some 100⟩ := by
    rw [overrideRelease, h1]
    norm_num [onRateChange, abs_of_nonneg, lt_abs, abs_sub_lt_iff]
  refine ⟨by rw [h1], by rw [h1], by rw [h1], by rw [h1], by rw [h2],
    by rw [h2], by rw [h2], ?_⟩
  intro liveRate
  rw [h2]
  unfold restoreCallback applySpeed
  norm_num
  split_ifs with h
  · rfl
  · rfl

/-- C4: with DesiredSpeed 1.5, video rate reset to 1.0, no manual
change within 500 ms, no active temporary speed and no external change
within 1000 ms, the periodic backstop (which runs every
TICK_INTERVAL_MS = 1000 ms) finds drift above 0.01, no allow condition
holding, and writes DesiredSpeed back onto the video element. -/
theorem periodic_backstop_reapplies (now : ℕ) (s : RecState)
    (hcs : s.currentSpeed = 3/2) (hvr : s.videoRate = 1)
    (htmp : s.temporarySpeed = none) (hsl : s.isSliderActive = false)
    (hvp : s.videoPresent = true)
    (hman : s.lastManualSpeedChange + 500 ≤ now)
    (hext : s.lastVideoSpeedChange + 1000 ≤ now) :
    (onPeriodicTick now s).corrected = true ∧
    (onPeriodicTick now s).state.videoRate = 3/2 ∧
    TICK_INTERVAL_MS = 1000 := by
  have h500 : ¬ (now - s.lastManualSpeedChange < 500) := by omega
  have h1000 : ¬ (now - s.lastVideoSpeedChange < 1000) := by omega
  have hgate : shouldAllowSpeedChange now s.videoRate s = false := by
    simp [shouldAllowSpeedChange, h500, h1000, tempActiveMatches, htmp]
  have hdrift : ((100 : ℚ))⁻¹ < |s.videoRate - 3/2| := by
    rw [hvr]; norm_num [lt_abs]
  refine ⟨?_, ?_, rfl⟩ <;>
    simp [onPeriodicTick, hsl, hvp, hgate, hcs, hdrift]

/-- C4 witness: instantiation on the post-ad-reset state at t = 2000. -/
theorem periodic_backstop_reapplies_witness :
    (onPeriodicTick 2000 overrideStart).corrected = true ∧
    (onPeriodicTick 2000 overrideStart).state.videoRate = 3/2 ∧
    TICK_INTERVAL_MS = 1000 :=
  periodic_backstop_reapplies 2000 overrideStart rfl rfl rfl rfl rfl
    (by decide) (by decide)

/-- Helper: with a save pending 300 ms after the previous call, a chain
of further calls that are each under 300 ms apart keeps superseding the
pending save before it can fire, so only the final one fires. -/
lemma debounceGo_pending_burst (rest : List (ℕ × ℚ)) :
    ∀ p : ℕ × ℚ, List.Chain burstStep p rest →
      debounceGo (some (p.1 + 300, p.2)) rest =
        debounceFlush
          (some ((rest.getLastD p).1 + 300, (rest.getLastD p).2)) := by
  induction rest with
  | nil => intro p _; rfl
  | cons q rest ih =>
    intro p hc
    obtain ⟨qt, qv⟩ := q
    rw [List.chain_cons] at hc
    obtain ⟨hpq, hchain⟩ := hc
    obtain ⟨hle, hlt⟩ := hpq
    have hnot : ¬ (p.1 + 300 ≤ qt) := by omega
    simp only [debounceGo]
    rw [if_neg hnot, List.nil_append, ih (qt, qv) hchain,
      List.getLastD_cons]

/-- Helper: the debounced save of an in-range value performs exactly
that one storage write when it fires. -/
lemma debounceFlush_inRange (t : ℕ) (v : ℚ)
    (hlo : MIN_SPEED ≤ v) (hhi : v ≤ MAX_SPEED) :
    debounceFlush (some (t, v)) = [(t, v)] := by
  have hs : saveSpeed v = some v := by
    unfold saveSpeed
    rw [if_neg (by rw [not_or]; exact ⟨not_lt.mpr hlo, not_lt.mpr hhi⟩)]
  simp [debounceFlush, hs]

/-- C6: a burst of applySpeed calls with successive calls under 300 ms
apart produces exactly one persistence write, carrying the last value of
the burst, 300 ms after the last call; no intermediate value is ever
written.  The second conjunct ties the model to applySpeed: each call
replaces the pending save with one firing 300 ms later. -/
theorem debounced_save_burst (first : ℕ × ℚ) (rest : List (ℕ × ℚ))
    (hchain : List.Chain burstStep first rest)
    (hlo : MIN_SPEED ≤ (rest.getLastD first).2)
    (hhi : (rest.getLastD first).2 ≤ MAX_SPEED) :
    debounceRun (first :: rest) =
      [((rest.getLastD first).1 + 300, (rest.getLastD first).2)] ∧
    (∀ (now : ℕ) (v : ℚ) (s : RecState), s.videoPresent = true →
      1 ≤ s.videoReadyState →
      (applySpeed now v false s).saveSpeedTimeout = some (now + 300, v)) := by
  constructor
  · obtain ⟨ft, fv⟩ := first
    simp only [debounceRun, debounceGo]
    rw [List.nil_append, debounceGo_pending_burst rest (ft, fv) hchain]
    exact debounceFlush_inRange _ _ hlo hhi
  · intro now v s hp hr
    simp [applySpeed, hp, Nat.not_lt.mpr hr]

/-- C6 witness: a three-call burst at t = 0, 100, 250 with values 1, 2, 3
persists exactly one write of 3 at t = 550. -/
theorem debounced_save_burst_witness :
    debounceRun [(0, 1), (100, 2), (250, 3)] = [(550, 3)] ∧
    (∀ (now : ℕ) (v : ℚ) (s : RecState), s.videoPresent = true →
      1 ≤ s.videoReadyState →
      (applySpeed now v false s).saveSpeedTimeout = some (now + 300, v)) :=
  debounced_save_burst (0, 1) [(100, 2), (250, 3)]
    (List.Chain.cons (by unfold burstStep; norm_num)
      (List.Chain.cons (by unfold burstStep; norm_num) List.Chain.nil))
    (by norm_num [MIN_SPEED, List.getLastD])
    (by norm_num [MAX_SPEED, List.getLastD])

/-- Helper: unfolding of injectSpeedControls when no primary player is
found. -/
lemma injectSpeedControls_none (d : DomState) :
    injectSpeedControls none d = (false, d) := rfl

/-- Helper: unfolding of injectSpeedControls at a found primary
player. -/
lemma injectSpeedControls_some (p : PlayerEnv) (d : DomState) :
    injectSpeedControls (some p) d =
      if ¬ (p.width > 100 ∧ p.height > 100) then (false, d)
      else if ¬ findRightControls p then (false, d)
      else if ¬ (p.hasVideo ∧ 1 ≤ p.videoReadyState) then (false, d)
      else if 0 < d.buttons ∧ d.refValid then (true, d)
      else (true, createNodes (removeOrphans d)) := rfl

/-- C7: injectSpeedControls preserves the at-most-one invariant for the
marker-class button and panel nodes, and whenever it creates nodes it
does so on the state left by removeOrphans, which holds zero marker
nodes: leftovers are removed before new nodes are created, and after a
creating run exactly one button and one panel exist. -/
theorem inject_mount_invariant (player : Option PlayerEnv) (d : DomState)
    (hb : d.buttons ≤ 1) (hp : d.panels ≤ 1) :
    ((injectSpeedControls player d).2 = d ∨
      ((injectSpeedControls player d).2 = createNodes (removeOrphans d) ∧
        (removeOrphans d).buttons = 0 ∧ (removeOrphans d).panels = 0 ∧
        (injectSpeedControls player d).2.buttons = 1 ∧
        (injectSpeedControls player d).2.panels = 1)) ∧
    (injectSpeedControls player d).2.buttons ≤ 1 ∧
    (injectSpeedControls player d).2.panels ≤ 1 := by
  cases player with
  | none => exact ⟨Or.inl rfl, hb, hp⟩
  | some p =>
    rw [injectSpeedControls_some]
    split_ifs <;> simp_all [createNodes, removeOrphans]

/-- C7 witness: instantiation on a document with no marker nodes and no
player found. -/
theorem inject_mount_invariant_witness :
    ((injectSpeedControls none ⟨0, 0, false⟩).2 = ⟨0, 0, false⟩ ∨
      ((injectSpeedControls none ⟨0, 0, false⟩).2 =
          createNodes (removeOrphans ⟨0, 0, false⟩) ∧
        (removeOrphans (⟨0, 0, false⟩ : DomState)).buttons = 0 ∧
        (removeOrphans (⟨0, 0, false⟩ : DomState)).panels = 0 ∧
        (injectSpeedControls none ⟨0, 0, false⟩).2.buttons = 1 ∧
        (injectSpeedControls none ⟨0, 0, false⟩).2.panels = 1)) ∧
    (injectSpeedControls none ⟨0, 0, false⟩).2.buttons ≤ 1 ∧
    (injectSpeedControls none ⟨0, 0, false⟩).2.panels ≤ 1 :=
  inject_mount_invariant none ⟨0, 0, false⟩ (by decide) (by decide)

/-- Helper: the attempt counter of the waitForPlayer loop grows by at
most the available fuel. -/
lemma waitForPlayerGo_le (f : ℕ → Bool) :
    ∀ (fuel a : ℕ), waitForPlayerGo f fuel a ≤ a + fuel := by
  intro fuel
  induction fuel with
  | zero => intro a; simp [waitForPlayerGo]
  | succ n ih =>
    intro a
    unfold waitForPlayerGo
    split_ifs
    · omega
    · omega
    · calc waitForPlayerGo f n (a + 1) ≤ (a + 1) + n := ih (a + 1)
        _ ≤ a + (n + 1) := by omega

/-- C8: injectSpeedControls reports a mount exactly when the primary
player #movie_player exists with bounding box above 100 px in both
dimensions, a controls container is found inside that player (the
lookup findRightControls is a function of the player element alone, so
it can never select a generic-class element document-wide), and the
contained video reports readyState at least 1; when it reports no mount
the document is unchanged; and the waitForPlayer polling loop performs
at most MAX_ATTEMPTS = 100 attempts at POLL_INTERVAL_MS = 500 ms. -/
theorem inject_primary_player_gate (player : Option PlayerEnv)
    (d : DomState) (f : ℕ → Bool) :
    ((injectSpeedControls player d).1 = true ↔
      ∃ p, player = some p ∧ 100 < p.width ∧ 100 < p.height ∧
        findRightControls p = true ∧ p.hasVideo = true ∧
        1 ≤ p.videoReadyState) ∧
    ((injectSpeedControls player d).1 = true ∨
      (injectSpeedControls player d).2 = d) ∧
    waitForPlayerAttempts f ≤ MAX_ATTEMPTS ∧
    MAX_ATTEMPTS = 100 ∧ POLL_INTERVAL_MS = 500 := by
  refine ⟨?_, ?_, ?_, rfl, rfl⟩
  · cases player with
    | none => simp [injectSpeedControls_none]
    | some p =>
      rw [injectSpeedControls_some]
      split_ifs <;> simp_all
  · cases player with
    | none => exact Or.inr rfl
    | some p =>
      rw [injectSpeedControls_some]
      split_ifs <;> simp
  · simpa [waitForPlayerAttempts] using
      waitForPlayerGo_le f MAX_ATTEMPTS 0

/-- C9: whenever the periodic backstop performs a correction, it also
re-synchronizes the reconciliation state (previousVideoSpeed becomes
DesiredSpeed, temporarySpeed is cleared, lastManualSpeedChange is set to
now), so a ratechange event arriving within 300 ms of the corrective
write is handled by the echo branch: it only refreshes
previousVideoSpeed and temporarySpeed and is never treated as an
external change. -/
theorem periodic_correction_resync (now nowE : ℕ) (s : RecState)
    (hc : (onPeriodicTick now s).corrected = true)
    (hecho : nowE - now < 300) :
    (onPeriodicTick now s).state.previousVideoSpeed = s.currentSpeed ∧
    (onPeriodicTick now s).state.temporarySpeed = none ∧
    (onPeriodicTick now s).state.lastManualSpeedChange = now ∧
    onRateChange nowE (onPeriodicTick now s).state =
      ⟨{ (onPeriodicTick now s).state with
          previousVideoSpeed := (onPeriodicTick now s).state.videoRate,
          temporarySpeed := none }, none⟩ := by
  unfold onPeriodicTick at hc ⊢
  split_ifs at hc ⊢ with h1 h2 h3 h4
  exact ⟨rfl, rfl, rfl,
    onRateChange_echo nowE _ (Bool.eq_false_iff.mpr h1)
      (by simpa using hecho)⟩

/-- C9 witness: instantiation on the post-ad-reset state corrected at
t = 2000 with the echo event at t = 2100. -/
theorem periodic_correction_resync_witness :
    (onPeriodicTick 2000 overrideStart).state.previousVideoSpeed =
      overrideStart.currentSpeed ∧
    (onPeriodicTick 2000 overrideStart).state.temporarySpeed = none ∧
    (onPeriodicTick 2000 overrideStart).state.lastManualSpeedChange =
      2000 ∧
    onRateChange 2100 (onPeriodicTick 2000 overrideStart).state =
      ⟨{ (onPeriodicTick 2000 overrideStart).state with
          previousVideoSpeed :=
            (onPeriodicTick 2000 overrideStart).state.videoRate,
          temporarySpeed := none }, none⟩ :=
  periodic_correction_resync 2000 2100 overrideStart
    (by norm_num [onPeriodicTick, overrideStart, shouldAllowSpeedChange,
      tempActiveMatches, lt_abs])
    (by decide)

/-- C10: an absent or falsy (0) persisted playbackSpeed leaves
currentSpeed at its default 1.0 at startup; a storage change whose new
value is falsy, or within 0.01 of currentSpeed, is ignored; and no
storage change ever schedules a persistence write back (the accepted
case runs applySpeed with skipSave, leaving the pending save untouched). -/
theorem storage_falsy_ignored_and_skip_save (now : ℕ) (v w u : ℚ)
    (s : RecState) (hclose : |v - s.currentSpeed| ≤ 1/100)
    (hu0 : u ≠ 0) (hufar : |u - s.currentSpeed| > 1/100)
    (hsl : s.isSliderActive = false) (hvp : s.videoPresent = true)
    (hr : 1 ≤ s.videoReadyState) :
    loadSavedSpeed none s = s ∧
    loadSavedSpeed (some 0) s = s ∧
    (loadSavedSpeed none initState).currentSpeed = 1 ∧
    (loadSavedSpeed (some 0) initState).currentSpeed = 1 ∧
    onStorageChanged now none s = s ∧
    onStorageChanged now (some 0) s = s ∧
    onStorageChanged now (some v) s = s ∧
    (onStorageChanged now (some u) s).currentSpeed = u ∧
    (onStorageChanged now (some w) s).saveSpeedTimeout =
      s.saveSpeedTimeout := by
  refine ⟨rfl, by simp [loadSavedSpeed], rfl,
    by simp [loadSavedSpeed, initState], ?_, ?_, ?_, ?_, ?_⟩
  · simp only [onStorageChanged]
    split_ifs <;> rfl
  · simp only [onStorageChanged]
    split_ifs <;> simp_all
  · simp only [onStorageChanged]
    split_ifs with h1 h2
    · rfl
    · exact absurd h2.2 (not_lt.mpr hclose)
    · rfl
  · simp only [onStorageChanged, hsl]
    rw [if_neg (by simp), if_pos ⟨hu0, hufar⟩]
    simp [applySpeed, hvp, Nat.not_lt.mpr hr]
  · simp only [onStorageChanged]
    split_ifs with h1 h2
    · rfl
    · unfold applySpeed
      split_ifs <;> simp_all
    · rfl

/-- C10 witness: instantiation at a stored change equal to the current
speed (v = 1 on the initial state) and an arbitrary accepted value. -/
theorem storage_falsy_ignored_and_skip_save_witness :
    loadSavedSpeed none initState = initState ∧
    loadSavedSpeed (some 0) initState = initState ∧
    (loadSavedSpeed none initState).currentSpeed = 1 ∧
    (loadSavedSpeed (some 0) initState).currentSpeed = 1 ∧
    onStorageChanged 7 none initState = initState ∧
    onStorageChanged 7 (some 0) initState = initState ∧
    onStorageChanged 7 (some 1) initState = initState ∧
    (onStorageChanged 7 (some 5) initState).currentSpeed = 5 ∧
    (onStorageChanged 7 (some 5) initState).saveSpeedTimeout =
      initState.saveSpeedTimeout :=
  storage_falsy_ignored_and_skip_save 7 1 5 5 initState
    (by norm_num [initState]) (by norm_num)
    (by norm_num [initState, lt_abs]) rfl rfl (by decide)

end YTSpeed
